import Mathlib

/-!
Verification development for the `backend-wms` maintainer backend.

The repository has two source files:
* `src/utilidades/ManejadorRespuestas.js` (shipped unnamed): a four-method
  HTTP response-envelope helper;
* `src/controladores/ControladorMantenedores.js`: read-only "maintainer"
  (master-data) HTTP handlers over a Prisma ORM client.

This file shallowly embeds both. JavaScript objects written with
`res.status(s).json({...})` become the `Respuesta` structure; a JSON key
whose value is `undefined` is dropped by `JSON.stringify`, so such keys are
modeled as `Option` fields with `none` meaning "absent from the body".
The database is a record of tables (lists of rows in the order the ORM
returns them); `findMany` with a `where` clause becomes `List.filter`,
`findFirst` becomes `List.find?`, `count` becomes `(List.filter _).length`.
Every database operation a handler issues is also recorded in an operation
trace (`OperacionBD`), so frame/effect claims are about the trace, not about
a by-construction pure function.

The Prisma schema itself is not among the sources; row types are modeled
from the fields the controller selects and references.
-/

/-- A JavaScript value passed as the `datos` payload: either an array
(`Array.isArray` true) or a non-array value. -/
inductive Datos (α : Type) where
  | lista (elementos : List α)
  | valor (v : α)
deriving Repr, DecidableEq

/-- HTTP response as written by `res.status(código).json({...})`.
Optional fields model JSON keys that some envelopes omit (or that are
`undefined`, which `JSON.stringify` drops). -/
structure Respuesta (α : Type) where
  status : Nat
  exito : Bool
  mensaje : String
  datos : Option (Datos α)
  total : Option Nat
  codigo : Option String
  errores : Option (List String)
deriving Repr, DecidableEq

namespace ManejadorRespuestas

/-- Source method `ManejadorRespuestas.exito(res, datos, mensaje, codigoEstado)`:
`total` is `datos.length` when `Array.isArray(datos)`, else `undefined`
(hence absent from the serialized body). -/
def exito {α : Type} (datos : Datos α) (mensaje : String := "Operación exitosa")
    (codigoEstado : Nat := 200) : Respuesta α :=
  { status := codigoEstado
    exito := true
    mensaje := mensaje
    datos := some datos
    total := match datos with
      | .lista l => some l.length
      | .valor _ => none
    codigo := none
    errores := none }

/-- Source method `ManejadorRespuestas.error(res, mensaje, codigo, codigoEstado)`. -/
def error {α : Type} (mensaje : String) (codigo : String := "ERROR_GENERICO")
    (codigoEstado : Nat := 500) : Respuesta α :=
  { status := codigoEstado
    exito := false
    mensaje := mensaje
    datos := none
    total := none
    codigo := some codigo
    errores := none }

/-- Source method `ManejadorRespuestas.validacionFallida(res, errores, mensaje)`. -/
def validacionFallida {α : Type} (errores : List String)
    (mensaje : String := "Datos de entrada inválidos") : Respuesta α :=
  { status := 400
    exito := false
    mensaje := mensaje
    datos := none
    total := none
    codigo := some "VALIDACION_FALLIDA"
    errores := some errores }

/-- Source method `ManejadorRespuestas.noEncontrado(res, mensaje)`. -/
def noEncontrado {α : Type} (mensaje : String := "Recurso no encontrado") : Respuesta α :=
  { status := 404
    exito := false
    mensaje := mensaje
    datos := none
    total := none
    codigo := some "RECURSO_NO_ENCONTRADO"
    errores := none }

end ManejadorRespuestas

/-! ## JavaScript primitives used by the controller -/

/-- Whitespace characters that `parseInt` skips at the front of its argument
(the ASCII ones; the controller never reaches the non-ASCII ones). -/
def esEspacioJS (c : Char) : Bool :=
  c == ' ' || c == '\t' || c == '\n' || c == '\r' || c == '\x0b' || c == '\x0c'

/-- Hexadecimal digit test for the `0x` branch of `parseInt`. -/
def esDigitoHexadecimal (c : Char) : Bool :=
  c.isDigit || ('a' ≤ c && c ≤ 'f') || ('A' ≤ c && c ≤ 'F')

/-- Numeric value of one hexadecimal digit. -/
def valorDigitoHex (c : Char) : Nat :=
  if c.isDigit then c.toNat - 48
  else if 'a' ≤ c then c.toNat - 87
  else c.toNat - 55

/-- Value of a decimal digit string. -/
def valorDecimal (l : List Char) : Nat :=
  l.foldl (fun acc c => acc * 10 + (c.toNat - 48)) 0

/-- Value of a hexadecimal digit string. -/
def valorHexadecimal (l : List Char) : Nat :=
  l.foldl (fun acc c => acc * 16 + valorDigitoHex c) 0

/-- Magnitude part of `parseInt(s)` (radix argument omitted, as in the
source): a `0x`/`0X` prefix selects base 16, otherwise base 10; parsing
stops at the first invalid character; `none` models `NaN` (no digits). -/
def cuerpoParseInt (l : List Char) : Option Nat :=
  match l with
  | '0' :: c :: resto =>
    if c == 'x' || c == 'X' then
      match resto.takeWhile esDigitoHexadecimal with
      | [] => none
      | ds => some (valorHexadecimal ds)
    else some (valorDecimal (l.takeWhile Char.isDigit))
  | _ =>
    match l.takeWhile Char.isDigit with
    | [] => none
    | ds => some (valorDecimal ds)

/-- JavaScript `parseInt(s)` with no radix argument: leading whitespace
skipped, optional sign, then `cuerpoParseInt`; `none` models `NaN`. -/
def jsParseInt (s : String) : Option Int :=
  match s.toList.dropWhile esEspacioJS with
  | '-' :: resto => (cuerpoParseInt resto).map (fun n => -(n : Int))
  | '+' :: resto => (cuerpoParseInt resto).map (fun n => (n : Int))
  | resto => (cuerpoParseInt resto).map (fun n => (n : Int))

/-- Removal of the first occurrence of `patron`: JavaScript
`s.replace(patron, '')` with a string pattern replaces only the first
occurrence, and the controller only ever replaces with the empty string. -/
def quitaPrimera (patron : List Char) : List Char → List Char
  | [] => []
  | c :: resto =>
    if patron.isPrefixOf (c :: resto) then (c :: resto).drop patron.length
    else c :: quitaPrimera patron resto

/-- String form of `quitaPrimera`, i.e. `s.replace(patron, '')`. -/
def jsReplaceVacio (s patron : String) : String :=
  ⟨quitaPrimera patron.toList s.toList⟩

/-- Bool-valued infix (substring) test on character lists. -/
def listaContiene [BEq α] (aguja : List α) : List α → Bool
  | [] => aguja.isEmpty
  | c :: resto => aguja.isPrefixOf (c :: resto) || listaContiene aguja resto

/-- Character-level lower-casing (ASCII), the case folding JavaScript and
Prisma apply to the strings this controller handles. -/
def minusculas (s : String) : List Char :=
  s.toList.map Char.toLower

/-- Prisma `title: { contains: patron, mode: 'insensitive' }`:
case-insensitive substring match. -/
def contieneInsensible (texto patron : String) : Bool :=
  listaContiene (minusculas patron) (minusculas texto)

/-- JavaScript `s.startsWith(patron)`. -/
def jsStartsWith (s patron : String) : Bool :=
  patron.toList.isPrefixOf s.toList

/-- JavaScript `s.toUpperCase()` (ASCII). -/
def jsToUpperCase (s : String) : String :=
  ⟨s.toList.map Char.toUpper⟩

/-- JavaScript falsiness of a route parameter as tested by `if (!x)`:
true for an absent parameter (`undefined`) and for the empty string. -/
def esFalsy : Option String → Bool
  | none => true
  | some s => s == ""

/-- Value of the `where` field `activo` built by
`const { activo = true } = req.query` followed by
`activo === 'true' || activo === true`: an omitted query parameter
destructures to the boolean `true` (second disjunct holds); a present
parameter is a string, and only the string `"true"` passes. -/
def filtroActivo : Option String → Bool
  | none => true
  | some s => s == "true"

/-- JavaScript `s.padStart(objetivo, c)`: pad on the left up to `objetivo`
characters; a string already at least that long is unchanged. -/
def rellenaIzquierda (s : String) (objetivo : Nat) (c : Char) : String :=
  ⟨List.replicate (objetivo - s.length) c⟩ ++ s

/-- A JavaScript value as it ends up in a JSON field that can hold
`null`, `undefined` (absent after serialization) or a string. -/
inductive ValorJS where
  | nulo
  | indefinido
  | cadena (s : String)
deriving Repr, DecidableEq

/-! ## Database model

The Prisma schema is not among the sources; each row type is modeled from
the fields the controller selects or references. Tables are lists in the
order the ORM returns rows; `findMany {where}` is `List.filter`,
`findFirst {where}` is `List.find?`, `count {where}` is the length of the
filter. The `orderBy` clauses only reorder the returned lists and no claim
concerns ordering, so they are not modeled. -/

/-- Row of table `materiales` (fields from the controller's `select`).
`frio` is a nullable string column, compared against `'Si'`/`'Sí'`. -/
structure MaterialRow where
  id : Nat
  codigo_ranco : String
  nombre_material : String
  unidad_medida : String
  frio : Option String
  activo : Bool
deriving Repr, DecidableEq

/-- Row of table `proveedores`. -/
structure ProveedorRow where
  id : Nat
  title : String
  activo : Bool
deriving Repr, DecidableEq

/-- Row of table `ubicacion`. -/
structure UbicacionRow where
  id : Nat
  title : String
  bodega_deposito : String
  planta : String
  activo : Bool
deriving Repr, DecidableEq

/-- Row of table `temporadas_app`. The handlers select `id`, `title`,
`fecha_inicio`, `fecha_fin`, `activo`; the summary handler additionally
references a filter field `activa` and a property `nombre`, which no other
handler selects, so they are modeled as optional JavaScript properties
(`none` means the property is absent, i.e. reads as `undefined`). -/
structure TemporadaRow where
  id : Nat
  title : String
  fecha_inicio : String
  fecha_fin : String
  activo : Bool
  activa : Option Bool
  nombre : Option String
deriving Repr, DecidableEq

/-- Row of table `tipo_movimientos_app`. -/
structure TipoMovimientoRow where
  id : Nat
  title : String
  descripcion : String
  activo : Bool
deriving Repr, DecidableEq

/-- The whole external data store, one list per table touched. -/
structure BaseDatos where
  materiales : List MaterialRow
  proveedores : List ProveedorRow
  ubicacion : List UbicacionRow
  temporadas_app : List TemporadaRow
  tipo_movimientos_app : List TipoMovimientoRow
deriving Repr, DecidableEq

/-- Modelled from the spec: the constants module
(`configuracion/constantes`) is not among the sources. Per the spec it is a
"constants table: static enumerations for plants and units of measure (no
persistence)"; `Object.entries` order is the list order, pairs are
(clave, valor). -/
structure Constantes where
  PLANTAS : List (String × String)
  UNIDADES_MEDIDA : List (String × String)
deriving Repr, DecidableEq

/-- One operation issued through the ORM client. The write operations are
part of the client's API and are listed so that read-only-ness of a trace
is a statement, not a tautology of the type. -/
inductive OperacionBD where
  | findMany (tabla : String)
  | findFirst (tabla : String)
  | count (tabla : String)
  | create (tabla : String)
  | update (tabla : String)
  | deleteMany (tabla : String)
deriving Repr, DecidableEq

/-- Read-only operations: the queries, not the writes. -/
def OperacionBD.esLectura : OperacionBD → Bool
  | .findMany _ | .findFirst _ | .count _ => true
  | .create _ | .update _ | .deleteMany _ => false

/-! ## Formatted (externally exposed) shapes -/

/-- Plant entry built from the constants table. -/
structure PlantaFmt where
  codigo : String
  nombre : String
  descripcion : String
deriving Repr, DecidableEq

/-- Material as exposed to the frontend. -/
structure MaterialFmt where
  id : Nat
  codigo : String
  nombre : String
  unidad_medida : String
  requiere_frio : Bool
  activo : Bool
deriving Repr, DecidableEq

/-- Supplier as exposed to the frontend; `rut`, `contacto`, `telefono`
and `email` are literally `null` in the source. -/
structure ProveedorFmt where
  id : Nat
  codigo : String
  nombre : String
  rut : Option String
  contacto : Option String
  telefono : Option String
  email : Option String
  activo : Bool
deriving Repr, DecidableEq

/-- Location as exposed to the frontend (`tipo` is the literal `'bodega'`). -/
structure UbicacionFmt where
  id : Nat
  codigo : String
  nombre : String
  bodega : String
  planta : String
  tipo : String
  activo : Bool
deriving Repr, DecidableEq

/-- Season rows are returned by the listing handler exactly as selected. -/
structure TemporadaSel where
  id : Nat
  title : String
  fecha_inicio : String
  fecha_fin : String
  activo : Bool
deriving Repr, DecidableEq

/-- Season as exposed by the active-season handler. -/
structure TemporadaFmt where
  id : Nat
  codigo : String
  nombre : String
  fecha_inicio : String
  fecha_termino : String
  activa : Bool
deriving Repr, DecidableEq

/-- Movement type as exposed to the frontend. -/
structure TipoMovimientoFmt where
  id : Nat
  codigo : String
  nombre : String
  descripcion : String
  activo : Bool
deriving Repr, DecidableEq

/-- Unit-of-measure entry built from the constants table. -/
structure UnidadMedidaFmt where
  codigo : String
  nombre : String
  descripcion : String
deriving Repr, DecidableEq

/-- Summary object of `obtenerResumenMantenedores`. -/
structure Resumen where
  materiales : Nat
  proveedores : Nat
  ubicaciones : Nat
  tiposMovimiento : Nat
  plantas : Nat
  unidadesMedida : Nat
  temporadaActiva : ValorJS
deriving Repr, DecidableEq

/-! ## Field-rename transforms (the map bodies of the controller) -/

/-- Synthetic supplier code: `` `PROV${proveedor.id.toString().padStart(3, '0')}` ``. -/
def codigoProveedor (id : Nat) : String :=
  "PROV" ++ rellenaIzquierda (toString id) 3 '0'

/-- Synthetic location code: `` `UB${ubicacion.id.toString().padStart(3, '0')}` ``. -/
def codigoUbicacion (id : Nat) : String :=
  "UB" ++ rellenaIzquierda (toString id) 3 '0'

/-- Material map body, identical in `obtenerMateriales` (lines 70-77) and
`obtenerMaterialPorCodigo` (lines 126-133);
`requiere_frio: material.frio === 'Si' || material.frio === 'Sí'`. -/
def formatearMaterial (m : MaterialRow) : MaterialFmt :=
  { id := m.id
    codigo := m.codigo_ranco
    nombre := m.nombre_material
    unidad_medida := m.unidad_medida
    requiere_frio := m.frio == some "Si" || m.frio == some "Sí"
    activo := m.activo }

/-- Supplier map body (lines 175-184 and 248-257). -/
def formatearProveedor (p : ProveedorRow) : ProveedorFmt :=
  { id := p.id
    codigo := codigoProveedor p.id
    nombre := p.title
    rut := none
    contacto := none
    telefono := none
    email := none
    activo := p.activo }

/-- Location map body (lines 303-311 and 365-373). -/
def formatearUbicacion (u : UbicacionRow) : UbicacionFmt :=
  { id := u.id
    codigo := codigoUbicacion u.id
    nombre := u.title
    bodega := u.bodega_deposito
    planta := u.planta
    tipo := "bodega"
    activo := u.activo }

/-- Projection performed by the `select` of the season listing handler. -/
def seleccionTemporada (t : TemporadaRow) : TemporadaSel :=
  { id := t.id
    title := t.title
    fecha_inicio := t.fecha_inicio
    fecha_fin := t.fecha_fin
    activo := t.activo }

/-- Active-season shape (lines 459-466): name and code from `title`,
`fecha_termino` from `fecha_fin`, `activa` from `activo`. -/
def formatearTemporadaActiva (t : TemporadaRow) : TemporadaFmt :=
  { id := t.id
    codigo := t.title
    nombre := t.title
    fecha_inicio := t.fecha_inicio
    fecha_termino := t.fecha_fin
    activa := t.activo }

/-- Movement-type map body (lines 508-514). -/
def formatearTipoMovimiento (t : TipoMovimientoRow) : TipoMovimientoFmt :=
  { id := t.id
    codigo := t.title
    nombre := t.title
    descripcion := t.descripcion
    activo := t.activo }

/-! ## Supplier lookup clause -/

/-- The `whereClause` computed at lines 219-230: either a lookup by numeric
id or a case-insensitive substring match on `title`; both variants also
require `activo: true`. -/
inductive ClausulaProveedor where
  | porId (id : Int)
  | porNombre (contiene : String)
deriving Repr, DecidableEq

/-- Lines 221-230: if the code starts with `'PROV'`, run `parseInt` on
`codigo.replace('PROV', '')`; a number selects lookup by id, `NaN` falls
back to the substring clause on the whole code, as does a code without the
`'PROV'` prefix. -/
def clausulaProveedorPorCodigo (codigo : String) : ClausulaProveedor :=
  if jsStartsWith codigo "PROV" then
    match jsParseInt (jsReplaceVacio codigo "PROV") with
    | some id => .porId id
    | none => .porNombre codigo
  else .porNombre codigo

/-- Row predicate denoted by a `ClausulaProveedor` (Prisma `where`). -/
def coincideClausula (c : ClausulaProveedor) (p : ProveedorRow) : Bool :=
  match c with
  | .porId i => ((p.id : Int) == i) && p.activo
  | .porNombre s => contieneInsensible p.title s && p.activo

/-! ## The controller

Each handler returns the HTTP response together with the trace of ORM
operations it issued. Route parameters (`req.params`) and query parameters
(`req.query`) are `Option String` (`none` = absent). -/

namespace ControladorMantenedores

/-- Handler `obtenerPlantas` (lines 19-41): static map over
`CONSTANTES.PLANTAS`, no database access. -/
def obtenerPlantas (c : Constantes) : Respuesta PlantaFmt × List OperacionBD :=
  (ManejadorRespuestas.exito
    (.lista (c.PLANTAS.map fun kv =>
      { codigo := kv.2, nombre := kv.2, descripcion := "Planta " ++ kv.2 }))
    "Plantas obtenidas exitosamente", [])

/-- Handler `obtenerMateriales` (lines 48-93). -/
def obtenerMateriales (activo : Option String) (db : BaseDatos) :
    Respuesta MaterialFmt × List OperacionBD :=
  let materiales := db.materiales.filter fun m => m.activo == filtroActivo activo
  (ManejadorRespuestas.exito (.lista (materiales.map formatearMaterial))
    "Materiales obtenidos exitosamente", [.findMany "materiales"])

/-- Handler `obtenerMaterialPorCodigo` (lines 100-149). -/
def obtenerMaterialPorCodigo (codigo : String) (db : BaseDatos) :
    Respuesta MaterialFmt × List OperacionBD :=
  let respuesta :=
    match db.materiales.find? fun m => m.codigo_ranco == codigo && m.activo with
    | none =>
      ManejadorRespuestas.noEncontrado
        ("Material con código " ++ codigo ++ " no encontrado")
    | some material =>
      ManejadorRespuestas.exito (.valor (formatearMaterial material))
        "Material obtenido exitosamente"
  (respuesta, [.findFirst "materiales"])

/-- Handler `obtenerProveedores` (lines 156-200). -/
def obtenerProveedores (activo : Option String) (db : BaseDatos) :
    Respuesta ProveedorFmt × List OperacionBD :=
  let proveedores := db.proveedores.filter fun p => p.activo == filtroActivo activo
  (ManejadorRespuestas.exito (.lista (proveedores.map formatearProveedor))
    "Proveedores obtenidos exitosamente", [.findMany "proveedores"])

/-- Handler `obtenerProveedorPorCodigo` (lines 207-273): validation guard
`if (!codigo)` first (no query in that case), then one `findFirst` with the
branched `whereClause`. -/
def obtenerProveedorPorCodigo (codigo : Option String) (db : BaseDatos) :
    Respuesta ProveedorFmt × List OperacionBD :=
  if esFalsy codigo then
    (ManejadorRespuestas.validacionFallida ["Código de proveedor requerido"]
      "Datos de entrada inválidos", [])
  else
    let cod := codigo.getD ""
    let respuesta :=
      match db.proveedores.find? (coincideClausula (clausulaProveedorPorCodigo cod)) with
      | none =>
        ManejadorRespuestas.noEncontrado
          ("Proveedor con código " ++ cod ++ " no encontrado")
      | some proveedor =>
        ManejadorRespuestas.exito (.valor (formatearProveedor proveedor))
          "Proveedor obtenido exitosamente"
    (respuesta, [.findFirst "proveedores"])

/-- Handler `obtenerUbicaciones` (lines 280-327). -/
def obtenerUbicaciones (activo : Option String) (db : BaseDatos) :
    Respuesta UbicacionFmt × List OperacionBD :=
  let ubicaciones := db.ubicacion.filter fun u => u.activo == filtroActivo activo
  (ManejadorRespuestas.exito (.lista (ubicaciones.map formatearUbicacion))
    "Ubicaciones obtenidas exitosamente", [.findMany "ubicacion"])

/-- Handler `obtenerUbicacionesPorPlanta` (lines 334-389): validation guard
`if (!planta)` first (no query), then `findMany` filtering on
`planta.toUpperCase()` and the `activo` filter. -/
def obtenerUbicacionesPorPlanta (planta : Option String) (activo : Option String)
    (db : BaseDatos) : Respuesta UbicacionFmt × List OperacionBD :=
  if esFalsy planta then
    (ManejadorRespuestas.validacionFallida ["Planta requerida"]
      "Datos de entrada inválidos", [])
  else
    let p := jsToUpperCase (planta.getD "")
    let ubicaciones := db.ubicacion.filter fun u =>
      u.planta == p && u.activo == filtroActivo activo
    (ManejadorRespuestas.exito (.lista (ubicaciones.map formatearUbicacion))
      ("Ubicaciones de planta " ++ p ++ " obtenidas exitosamente"),
     [.findMany "ubicacion"])

/-- Handler `obtenerTemporadas` (lines 396-430): rows are returned as
selected, with no rename step. -/
def obtenerTemporadas (activo : Option String) (db : BaseDatos) :
    Respuesta TemporadaSel × List OperacionBD :=
  let temporadas := db.temporadas_app.filter fun t => t.activo == filtroActivo activo
  (ManejadorRespuestas.exito (.lista (temporadas.map seleccionTemporada))
    "Temporadas obtenidas exitosamente", [.findMany "temporadas_app"])

/-- Handler `obtenerTemporadaActiva` (lines 437-482): `findFirst` with
`where: { activo: true }`, 404 when no row. -/
def obtenerTemporadaActiva (db : BaseDatos) :
    Respuesta TemporadaFmt × List OperacionBD :=
  let respuesta :=
    match db.temporadas_app.find? (fun t => t.activo) with
    | none => ManejadorRespuestas.noEncontrado "No hay temporada activa configurada"
    | some t =>
      ManejadorRespuestas.exito (.valor (formatearTemporadaActiva t))
        "Temporada activa obtenida exitosamente"
  (respuesta, [.findFirst "temporadas_app"])

/-- Handler `obtenerTiposMovimiento` (lines 489-530). -/
def obtenerTiposMovimiento (activo : Option String) (db : BaseDatos) :
    Respuesta TipoMovimientoFmt × List OperacionBD :=
  let tipos := db.tipo_movimientos_app.filter fun t => t.activo == filtroActivo activo
  (ManejadorRespuestas.exito (.lista (tipos.map formatearTipoMovimiento))
    "Tipos de movimiento obtenidos exitosamente", [.findMany "tipo_movimientos_app"])

/-- Handler `obtenerUnidadesMedida` (lines 537-559): static map over
`CONSTANTES.UNIDADES_MEDIDA`;
`nombre: clave.toLowerCase().replace(/_/g, ' ')` (global replace). -/
def obtenerUnidadesMedida (c : Constantes) :
    Respuesta UnidadMedidaFmt × List OperacionBD :=
  (ManejadorRespuestas.exito
    (.lista (c.UNIDADES_MEDIDA.map fun kv =>
      { codigo := kv.2
        nombre := ⟨(minusculas kv.1).map fun ch => if ch == '_' then ' ' else ch⟩
        descripcion := kv.2 }))
    "Unidades de medida obtenidas exitosamente", [])

end ControladorMantenedores

/-! ## Summary handler with its fail-fast join -/

/-- Which of the five jointly-awaited queries of the summary handler reject
(the database layer throwing is external behavior, so it is a parameter). -/
structure FallosResumen where
  materiales : Bool
  proveedores : Bool
  ubicaciones : Bool
  temporada : Bool
  tiposMovimiento : Bool
deriving Repr, DecidableEq

/-- All five queries resolve. -/
def sinFallos : FallosResumen :=
  { materiales := false, proveedores := false, ubicaciones := false,
    temporada := false, tiposMovimiento := false }

/-- One awaited query: its value when it resolves, `Except.error` when the
database layer rejects it. -/
def consultaPosible (falla : Bool) (valor : α) : Except Unit α :=
  if falla then .error () else .ok valor

/-- The `Promise.all` of lines 574-580: five independent queries awaited
jointly; if any one rejects the combination rejects (fail-fast, no partial
tuple). The fourth is `findFirst({ where: { activa: true } })` on
`temporadas_app` — filter field `activa`, not `activo`. -/
def consultasResumen (db : BaseDatos) (f : FallosResumen) :
    Except Unit (Nat × Nat × Nat × Option TemporadaRow × Nat) := do
  let totalMateriales ← consultaPosible f.materiales
    (db.materiales.filter (fun m => m.activo)).length
  let totalProveedores ← consultaPosible f.proveedores
    (db.proveedores.filter (fun p => p.activo)).length
  let totalUbicaciones ← consultaPosible f.ubicaciones
    (db.ubicacion.filter (fun u => u.activo)).length
  let temporadaActiva ← consultaPosible f.temporada
    (db.temporadas_app.find? (fun t => t.activa == some true))
  let totalTiposMovimiento ← consultaPosible f.tiposMovimiento
    (db.tipo_movimientos_app.filter (fun t => t.activo)).length
  return (totalMateriales, totalProveedores, totalUbicaciones,
          temporadaActiva, totalTiposMovimiento)

/-- The summary object of lines 582-590.
`temporadaActiva ? temporadaActiva.nombre : null`: `null` when no row was
found, otherwise the row's `nombre` property (undefined when absent). -/
def construyeResumen (totalMateriales totalProveedores totalUbicaciones : Nat)
    (temporadaActiva : Option TemporadaRow) (totalTiposMovimiento : Nat)
    (c : Constantes) : Resumen :=
  { materiales := totalMateriales
    proveedores := totalProveedores
    ubicaciones := totalUbicaciones
    tiposMovimiento := totalTiposMovimiento
    plantas := c.PLANTAS.length
    unidadesMedida := c.UNIDADES_MEDIDA.length
    temporadaActiva :=
      match temporadaActiva with
      | some t =>
        match t.nombre with
        | some s => .cadena s
        | none => .indefinido
      | none => .nulo }

namespace ControladorMantenedores

/-- Handler `obtenerResumenMantenedores` (lines 566-606): the five queries
are all dispatched, awaited jointly; a rejection reaches the `catch` and
produces the single 500 envelope with code
`ERROR_OBTENER_RESUMEN_MANTENEDORES` (status omitted at the call site, so
the default 500 of `ManejadorRespuestas.error` applies). -/
def obtenerResumenMantenedores (db : BaseDatos) (c : Constantes)
    (f : FallosResumen) : Respuesta Resumen × List OperacionBD :=
  let traza : List OperacionBD :=
    [.count "materiales", .count "proveedores", .count "ubicacion",
     .findFirst "temporadas_app", .count "tipo_movimientos_app"]
  match consultasResumen db f with
  | .error _ =>
    (ManejadorRespuestas.error "Error al obtener resumen de mantenedores"
      "ERROR_OBTENER_RESUMEN_MANTENEDORES", traza)
  | .ok (tm, tp, tu, ta, ttm) =>
    (ManejadorRespuestas.exito (.valor (construyeResumen tm tp tu ta ttm c))
      "Resumen de mantenedores obtenido exitosamente", traza)

end ControladorMantenedores

/-! ## Concrete sample data for witnesses and counterexamples -/

/-- Small concrete database used by witnesses. -/
def dbEjemplo : BaseDatos :=
  { materiales := [{ id := 1, codigo_ranco := "MAT1", nombre_material := "Manzana",
                     unidad_medida := "kg", frio := some "Si", activo := true }]
    proveedores := [{ id := 7, title := "Acme Foods", activo := true }]
    ubicacion := [{ id := 7, title := "Bodega Central", bodega_deposito := "B1",
                    planta := "RANCAGUA", activo := true }]
    temporadas_app := [{ id := 1, title := "2024-2025", fecha_inicio := "2024-07-01",
                         fecha_fin := "2025-06-30", activo := true,
                         activa := none, nombre := none }]
    tipo_movimientos_app := [{ id := 1, title := "Recepcion",
                               descripcion := "Ingreso", activo := true }] }

/-- Small concrete constants table used by witnesses. -/
def cEjemplo : Constantes :=
  { PLANTAS := [("RANCAGUA", "Rancagua")]
    UNIDADES_MEDIDA := [("KILOGRAMO", "kg")] }

/-! ## Helper lemmas -/

/-- An omitted `activo` parameter makes the `where` clause keep exactly the
active rows. -/
theorem filtra_activo_omitido {α : Type} (l : List α) (f : α → Bool) :
    (l.filter fun a => f a == filtroActivo none) = l.filter fun a => f a := by
  apply List.filter_congr
  intro a _
  cases f a <;> rfl

/-- The literal string `"false"` makes the `where` clause keep exactly the
inactive rows. -/
theorem filtra_activo_false {α : Type} (l : List α) (f : α → Bool) :
    (l.filter fun a => f a == filtroActivo (some "false")) = l.filter fun a => !f a := by
  apply List.filter_congr
  intro a _
  cases f a <;> rfl

/-! ## Claims -/

/-- C1: every success envelope has `exito:true`, the given message, the
payload under `datos`, a `total` equal to the payload's length exactly when
the payload is a list (absent otherwise), and the default HTTP status 200
when the caller does not override it. -/
theorem exito_total_y_estado {α : Type} (datos : Datos α) (mensaje : String) :
    (ManejadorRespuestas.exito datos mensaje).status = 200 ∧
    (ManejadorRespuestas.exito datos mensaje).exito = true ∧
    (ManejadorRespuestas.exito datos mensaje).mensaje = mensaje ∧
    (ManejadorRespuestas.exito datos mensaje).datos = some datos ∧
    (∀ l : List α, (ManejadorRespuestas.exito (Datos.lista l) mensaje).total = some l.length) ∧
    (∀ v : α, (ManejadorRespuestas.exito (Datos.valor v) mensaje).total = none) :=
  ⟨rfl, rfl, rfl, rfl, fun _ => rfl, fun _ => rfl⟩

/-- Test used to state claim C2 as written: the code consists of `"PROV"`
followed by one or more decimal digits. -/
def esPROVMasDigitos (s : String) : Bool :=
  jsStartsWith s "PROV" && !(s.toList.drop 4).isEmpty && (s.toList.drop 4).all Char.isDigit

/-- Claim C2 as written, at one code: a `"PROV"+digits` code is looked up
by the numeric id read from the digits, any other code by case-insensitive
substring match against the name. -/
def afirmacionC2 (codigo : String) : Prop :=
  (esPROVMasDigitos codigo = true →
    clausulaProveedorPorCodigo codigo = .porId (valorDecimal (codigo.toList.drop 4))) ∧
  (esPROVMasDigitos codigo = false →
    clausulaProveedorPorCodigo codigo = .porNombre codigo)

/-- C2 (counterexample): `"PROV7X"` is not `"PROV"+digits`, yet the code
looks it up by id 7, because `parseInt('7X')` is 7 — the claim's
otherwise-branch (substring match) does not happen. -/
theorem clausula_proveedor_contra : ¬ afirmacionC2 "PROV7X" := by
  unfold afirmacionC2
  decide

/-- C2 (amended): if the code starts with `"PROV"` and JavaScript
`parseInt` applied to the rest yields a number `i`, the lookup is by id
`i`; otherwise — `parseInt` yields `NaN`, or the prefix is absent — the
lookup is a case-insensitive substring match of the code against the name. -/
theorem clausula_proveedor_parseInt (codigo : String) :
    (∀ i : Int, jsStartsWith codigo "PROV" = true →
      jsParseInt (jsReplaceVacio codigo "PROV") = some i →
      clausulaProveedorPorCodigo codigo = .porId i) ∧
    (jsStartsWith codigo "PROV" = true →
      jsParseInt (jsReplaceVacio codigo "PROV") = none →
      clausulaProveedorPorCodigo codigo = .porNombre codigo) ∧
    (jsStartsWith codigo "PROV" = false →
      clausulaProveedorPorCodigo codigo = .porNombre codigo) := by
  refine ⟨fun i h1 h2 => ?_, fun h1 h2 => ?_, fun h1 => ?_⟩
  · simp [clausulaProveedorPorCodigo, h1, h2]
  · simp [clausulaProveedorPorCodigo, h1, h2]
  · simp [clausulaProveedorPorCodigo, h1]

/-- C2 (witness): the three behaviors of the amended claim at the spec's
own examples, obtained from `clausula_proveedor_parseInt`. -/
theorem clausula_proveedor_parseInt_witness :
    clausulaProveedorPorCodigo "PROV007" = .porId 7 ∧
    clausulaProveedorPorCodigo "Acme" = .porNombre "Acme" ∧
    clausulaProveedorPorCodigo "PROV" = .porNombre "PROV" :=
  ⟨(clausula_proveedor_parseInt "PROV007").1 7 (by decide) (by decide),
   (clausula_proveedor_parseInt "Acme").2.2 (by decide),
   (clausula_proveedor_parseInt "PROV").2.1 (by decide) (by decide)⟩

/-- C6 (counterexample): the three error envelopes carry the Spanish code
strings of the source, not the English ones the claim states. -/
theorem envolturas_error_contra :
    (ManejadorRespuestas.validacionFallida ["e"] "m" : Respuesta Unit).codigo
      ≠ some "VALIDATION_FAILED" ∧
    (ManejadorRespuestas.noEncontrado "m" : Respuesta Unit).codigo
      ≠ some "RESOURCE_NOT_FOUND" ∧
    (ManejadorRespuestas.error "m" : Respuesta Unit).codigo
      ≠ some "GENERIC_ERROR" := by
  decide

/-- C6 (amended): `validacionFallida` always writes HTTP 400 with codigo
`"VALIDACION_FALLIDA"` and the errores list; `noEncontrado` always writes
HTTP 404 with codigo `"RECURSO_NO_ENCONTRADO"`; `error` defaults to HTTP
500 and to codigo `"ERROR_GENERICO"`; all three write `exito:false`. -/
theorem envolturas_error_codigos {α : Type} (mensaje cod : String) (errores : List String) :
    ((ManejadorRespuestas.validacionFallida errores mensaje : Respuesta α).status = 400 ∧
     (ManejadorRespuestas.validacionFallida errores mensaje : Respuesta α).codigo
       = some "VALIDACION_FALLIDA" ∧
     (ManejadorRespuestas.validacionFallida errores mensaje : Respuesta α).errores
       = some errores ∧
     (ManejadorRespuestas.validacionFallida errores mensaje : Respuesta α).exito = false) ∧
    ((ManejadorRespuestas.noEncontrado mensaje : Respuesta α).status = 404 ∧
     (ManejadorRespuestas.noEncontrado mensaje : Respuesta α).codigo
       = some "RECURSO_NO_ENCONTRADO" ∧
     (ManejadorRespuestas.noEncontrado mensaje : Respuesta α).exito = false) ∧
    ((ManejadorRespuestas.error mensaje cod : Respuesta α).status = 500 ∧
     (ManejadorRespuestas.error mensaje : Respuesta α).codigo = some "ERROR_GENERICO" ∧
     (ManejadorRespuestas.error mensaje cod : Respuesta α).exito = false) :=
  ⟨⟨rfl, rfl, rfl, rfl⟩, ⟨rfl, rfl, rfl⟩, ⟨rfl, rfl, rfl⟩⟩

/-- C3: in the five listing handlers that take the `activo` query
parameter, an omitted parameter filters for active-only rows, and the
literal string `"false"` filters for inactive rows. -/
theorem filtro_activo_listados (db : BaseDatos) :
    ((ControladorMantenedores.obtenerMateriales none db).1.datos =
      some (.lista ((db.materiales.filter fun m => m.activo).map formatearMaterial))) ∧
    ((ControladorMantenedores.obtenerMateriales (some "false") db).1.datos =
      some (.lista ((db.materiales.filter fun m => !m.activo).map formatearMaterial))) ∧
    ((ControladorMantenedores.obtenerProveedores none db).1.datos =
      some (.lista ((db.proveedores.filter fun p => p.activo).map formatearProveedor))) ∧
    ((ControladorMantenedores.obtenerProveedores (some "false") db).1.datos =
      some (.lista ((db.proveedores.filter fun p => !p.activo).map formatearProveedor))) ∧
    ((ControladorMantenedores.obtenerUbicaciones none db).1.datos =
      some (.lista ((db.ubicacion.filter fun u => u.activo).map formatearUbicacion))) ∧
    ((ControladorMantenedores.obtenerUbicaciones (some "false") db).1.datos =
      some (.lista ((db.ubicacion.filter fun u => !u.activo).map formatearUbicacion))) ∧
    ((ControladorMantenedores.obtenerTemporadas none db).1.datos =
      some (.lista ((db.temporadas_app.filter fun t => t.activo).map seleccionTemporada))) ∧
    ((ControladorMantenedores.obtenerTemporadas (some "false") db).1.datos =
      some (.lista ((db.temporadas_app.filter fun t => !t.activo).map seleccionTemporada))) ∧
    ((ControladorMantenedores.obtenerTiposMovimiento none db).1.datos =
      some (.lista ((db.tipo_movimientos_app.filter fun t => t.activo).map
        formatearTipoMovimiento))) ∧
    ((ControladorMantenedores.obtenerTiposMovimiento (some "false") db).1.datos =
      some (.lista ((db.tipo_movimientos_app.filter fun t => !t.activo).map
        formatearTipoMovimiento))) := by
  refine ⟨?_, ?_, ?_, ?_, ?_, ?_, ?_, ?_, ?_, ?_⟩ <;>
    simp only [ControladorMantenedores.obtenerMateriales,
      ControladorMantenedores.obtenerProveedores,
      ControladorMantenedores.obtenerUbicaciones,
      ControladorMantenedores.obtenerTemporadas,
      ControladorMantenedores.obtenerTiposMovimiento,
      ManejadorRespuestas.exito, filtra_activo_omitido, filtra_activo_false]

/-- C4: if any one of the five jointly-awaited queries of the summary
handler fails, the call produces the single 500 envelope with code
`ERROR_OBTENER_RESUMEN_MANTENEDORES` and carries no summary data at all. -/
theorem resumen_falla_conjunta (db : BaseDatos) (c : Constantes) (f : FallosResumen)
    (h : (f.materiales || f.proveedores || f.ubicaciones || f.temporada ||
          f.tiposMovimiento) = true) :
    (ControladorMantenedores.obtenerResumenMantenedores db c f).1.status = 500 ∧
    (ControladorMantenedores.obtenerResumenMantenedores db c f).1.codigo
      = some "ERROR_OBTENER_RESUMEN_MANTENEDORES" ∧
    (ControladorMantenedores.obtenerResumenMantenedores db c f).1.exito = false ∧
    (ControladorMantenedores.obtenerResumenMantenedores db c f).1.datos = none ∧
    (ControladorMantenedores.obtenerResumenMantenedores db c f).1.total = none := by
  obtain ⟨fm, fp, fu, ft, fv⟩ := f
  rcases fm <;> rcases fp <;> rcases fu <;> rcases ft <;> rcases fv <;>
    simp_all [ControladorMantenedores.obtenerResumenMantenedores, consultasResumen,
      consultaPosible, ManejadorRespuestas.error, bind, Except.bind]

/-- C4 (witness): a failing materials count in the concrete database
produces the single 500 envelope. -/
theorem resumen_falla_conjunta_witness :
    (ControladorMantenedores.obtenerResumenMantenedores dbEjemplo cEjemplo
      ⟨true, false, false, false, false⟩).1.status = 500 ∧
    (ControladorMantenedores.obtenerResumenMantenedores dbEjemplo cEjemplo
      ⟨true, false, false, false, false⟩).1.codigo
      = some "ERROR_OBTENER_RESUMEN_MANTENEDORES" ∧
    (ControladorMantenedores.obtenerResumenMantenedores dbEjemplo cEjemplo
      ⟨true, false, false, false, false⟩).1.exito = false ∧
    (ControladorMantenedores.obtenerResumenMantenedores dbEjemplo cEjemplo
      ⟨true, false, false, false, false⟩).1.datos = none ∧
    (ControladorMantenedores.obtenerResumenMantenedores dbEjemplo cEjemplo
      ⟨true, false, false, false, false⟩).1.total = none :=
  resumen_falla_conjunta dbEjemplo cEjemplo ⟨true, false, false, false, false⟩ (by decide)

/-- C5 (counterexample): with the path parameter absent, both guarded
handlers answer with the source's code string `VALIDACION_FALLIDA`, not
the `VALIDATION_FAILED` the claim states. -/
theorem validacion_codigo_contra :
    (ControladorMantenedores.obtenerProveedorPorCodigo none dbEjemplo).1.codigo
      ≠ some "VALIDATION_FAILED" ∧
    (ControladorMantenedores.obtenerUbicacionesPorPlanta none none dbEjemplo).1.codigo
      ≠ some "VALIDATION_FAILED" := by
  decide

/-- C5 (amended): a missing (or empty) required path parameter makes the
handler answer HTTP 400 with code `VALIDACION_FALLIDA`, and its operation
trace is empty — no query is issued. -/
theorem validacion_parametro_faltante (codigo planta activo : Option String)
    (db : BaseDatos) (h1 : esFalsy codigo = true) (h2 : esFalsy planta = true) :
    ((ControladorMantenedores.obtenerProveedorPorCodigo codigo db).1.status = 400 ∧
     (ControladorMantenedores.obtenerProveedorPorCodigo codigo db).1.codigo
       = some "VALIDACION_FALLIDA" ∧
     (ControladorMantenedores.obtenerProveedorPorCodigo codigo db).1.exito = false ∧
     (ControladorMantenedores.obtenerProveedorPorCodigo codigo db).2 = []) ∧
    ((ControladorMantenedores.obtenerUbicacionesPorPlanta planta activo db).1.status = 400 ∧
     (ControladorMantenedores.obtenerUbicacionesPorPlanta planta activo db).1.codigo
       = some "VALIDACION_FALLIDA" ∧
     (ControladorMantenedores.obtenerUbicacionesPorPlanta planta activo db).1.exito = false ∧
     (ControladorMantenedores.obtenerUbicacionesPorPlanta planta activo db).2 = []) := by
  constructor
  · simp [ControladorMantenedores.obtenerProveedorPorCodigo, h1,
      ManejadorRespuestas.validacionFallida]
  · simp [ControladorMantenedores.obtenerUbicacionesPorPlanta, h2,
      ManejadorRespuestas.validacionFallida]

/-- C5 (witness): both guards firing on the concrete database with absent
parameters. -/
theorem validacion_parametro_faltante_witness :
    ((ControladorMantenedores.obtenerProveedorPorCodigo none dbEjemplo).1.status = 400 ∧
     (ControladorMantenedores.obtenerProveedorPorCodigo none dbEjemplo).1.codigo
       = some "VALIDACION_FALLIDA" ∧
     (ControladorMantenedores.obtenerProveedorPorCodigo none dbEjemplo).1.exito = false ∧
     (ControladorMantenedores.obtenerProveedorPorCodigo none dbEjemplo).2 = []) ∧
    ((ControladorMantenedores.obtenerUbicacionesPorPlanta none none dbEjemplo).1.status = 400 ∧
     (ControladorMantenedores.obtenerUbicacionesPorPlanta none none dbEjemplo).1.codigo
       = some "VALIDACION_FALLIDA" ∧
     (ControladorMantenedores.obtenerUbicacionesPorPlanta none none dbEjemplo).1.exito = false ∧
     (ControladorMantenedores.obtenerUbicacionesPorPlanta none none dbEjemplo).2 = []) :=
  validacion_parametro_faltante none none none dbEjemplo (by decide) (by decide)

/-- C7: the exposed `requiere_frio` is true exactly when the row's `frio`
string is `"Si"` or `"Sí"` (false for any other value, including null);
both material handlers expose rows through this same transform. -/
theorem requiere_frio_caracterizacion (db : BaseDatos) :
    (∀ m : MaterialRow, (formatearMaterial m).requiere_frio = true ↔
      (m.frio = some "Si" ∨ m.frio = some "Sí")) ∧
    (∀ activo, (ControladorMantenedores.obtenerMateriales activo db).1.datos =
      some (.lista ((db.materiales.filter fun m =>
        m.activo == filtroActivo activo).map formatearMaterial))) ∧
    (∀ codigo m, db.materiales.find? (fun x => x.codigo_ranco == codigo && x.activo)
        = some m →
      (ControladorMantenedores.obtenerMaterialPorCodigo codigo db).1.datos =
        some (.valor (formatearMaterial m))) := by
  refine ⟨fun m => ?_, fun _ => rfl, fun codigo m h => ?_⟩
  · simp [formatearMaterial, Bool.or_eq_true, beq_iff_eq]
  · simp [ControladorMantenedores.obtenerMaterialPorCodigo, h,
      ManejadorRespuestas.exito]

/-- C7 (witness): the material-by-code handler on the concrete database
returns the formatted row found by the query. -/
theorem requiere_frio_caracterizacion_witness :
    (ControladorMantenedores.obtenerMaterialPorCodigo "MAT1" dbEjemplo).1.datos =
      some (.valor (formatearMaterial
        { id := 1, codigo_ranco := "MAT1", nombre_material := "Manzana",
          unidad_medida := "kg", frio := some "Si", activo := true })) :=
  (requiere_frio_caracterizacion dbEjemplo).2.2 "MAT1"
    { id := 1, codigo_ranco := "MAT1", nombre_material := "Manzana",
      unidad_medida := "kg", frio := some "Si", activo := true } (by decide)

/-- C8: synthetic codes are the prefix (`"PROV"`/`"UB"`) plus the decimal
rendering of the id zero-padded on the left to at least three digits, with
no truncation; the handler map bodies use exactly these code builders, and
the spec's sample ids come out as stated. -/
theorem codigos_sinteticos_relleno (n : Nat) :
    codigoProveedor n = "PROV" ++ rellenaIzquierda (toString n) 3 '0' ∧
    codigoUbicacion n = "UB" ++ rellenaIzquierda (toString n) 3 '0' ∧
    (rellenaIzquierda (toString n) 3 '0').data
      = List.replicate (3 - (toString n).length) '0' ++ (toString n).data ∧
    (rellenaIzquierda (toString n) 3 '0').length = max (toString n).length 3 ∧
    (∀ p : ProveedorRow, (formatearProveedor p).codigo = codigoProveedor p.id) ∧
    (∀ u : UbicacionRow, (formatearUbicacion u).codigo = codigoUbicacion u.id) ∧
    codigoProveedor 7 = "PROV007" ∧ codigoUbicacion 7 = "UB007" ∧
    codigoProveedor 1234 = "PROV1234" := by
  have hdata : (rellenaIzquierda (toString n) 3 '0').data
      = List.replicate (3 - (toString n).length) '0' ++ (toString n).data := rfl
  refine ⟨rfl, rfl, hdata, ?_, fun _ => rfl, fun _ => rfl, by decide, by decide, by decide⟩
  show (rellenaIzquierda (toString n) 3 '0').data.length = max (toString n).length 3
  rw [hdata, List.length_append, List.length_replicate]
  have hl : (toString n).data.length = (toString n).length := rfl
  rw [hl, Nat.max_def]
  split <;> omega

/-- C9: every handler of the controller issues only read operations
(`findMany`, `findFirst`, `count`) — no create, update or delete appears in
any operation trace, for any request and any database state. -/
theorem manejadores_solo_lectura (db : BaseDatos) (c : Constantes)
    (activo codigoP planta : Option String) (codigoM : String) (f : FallosResumen) :
    ((ControladorMantenedores.obtenerPlantas c).2.all OperacionBD.esLectura = true) ∧
    ((ControladorMantenedores.obtenerMateriales activo db).2.all
      OperacionBD.esLectura = true) ∧
    ((ControladorMantenedores.obtenerMaterialPorCodigo codigoM db).2.all
      OperacionBD.esLectura = true) ∧
    ((ControladorMantenedores.obtenerProveedores activo db).2.all
      OperacionBD.esLectura = true) ∧
    ((ControladorMantenedores.obtenerProveedorPorCodigo codigoP db).2.all
      OperacionBD.esLectura = true) ∧
    ((ControladorMantenedores.obtenerUbicaciones activo db).2.all
      OperacionBD.esLectura = true) ∧
    ((ControladorMantenedores.obtenerUbicacionesPorPlanta planta activo db).2.all
      OperacionBD.esLectura = true) ∧
    ((ControladorMantenedores.obtenerTemporadas activo db).2.all
      OperacionBD.esLectura = true) ∧
    ((ControladorMantenedores.obtenerTemporadaActiva db).2.all
      OperacionBD.esLectura = true) ∧
    ((ControladorMantenedores.obtenerTiposMovimiento activo db).2.all
      OperacionBD.esLectura = true) ∧
    ((ControladorMantenedores.obtenerUnidadesMedida c).2.all
      OperacionBD.esLectura = true) ∧
    ((ControladorMantenedores.obtenerResumenMantenedores db c f).2.all
      OperacionBD.esLectura = true) := by
  refine ⟨rfl, rfl, rfl, rfl, ?_, rfl, ?_, rfl, rfl, rfl, rfl, ?_⟩
  · cases hoption : esFalsy codigoP <;>
      simp [ControladorMantenedores.obtenerProveedorPorCodigo, hoption,
        OperacionBD.esLectura]
  · cases hoption : esFalsy planta <;>
      simp [ControladorMantenedores.obtenerUbicacionesPorPlanta, hoption,
        OperacionBD.esLectura]
  · rcases hc : consultasResumen db f with _ | ⟨tm, tp, tu, ta, ttm⟩ <;>
      simp [ControladorMantenedores.obtenerResumenMantenedores, hc,
        OperacionBD.esLectura]

/-- C10: the summary's `temporadaActiva` is the `nombre` property of the
first `temporadas_app` row matching the filter field `activa = true`
(`null` exactly when no such row exists), while the dedicated active-season
handler filters on `activo` and exposes the name from `title`. -/
theorem resumen_temporada_discrepancia (db : BaseDatos) (c : Constantes) :
    ((ControladorMantenedores.obtenerResumenMantenedores db c sinFallos).1.datos =
      some (.valor (construyeResumen
        (db.materiales.filter (fun m => m.activo)).length
        (db.proveedores.filter (fun p => p.activo)).length
        (db.ubicacion.filter (fun u => u.activo)).length
        (db.temporadas_app.find? (fun t => t.activa == some true))
        (db.tipo_movimientos_app.filter (fun t => t.activo)).length c))) ∧
    (∀ (ta : Option TemporadaRow) (tm tp tu ttm : Nat),
      ((construyeResumen tm tp tu ta ttm c).temporadaActiva = ValorJS.nulo ↔
        ta = none)) ∧
    (∀ t : TemporadaRow, (formatearTemporadaActiva t).nombre = t.title) ∧
    (∀ t, db.temporadas_app.find? (fun x => x.activo) = some t →
      (ControladorMantenedores.obtenerTemporadaActiva db).1.datos =
        some (.valor (formatearTemporadaActiva t))) := by
  refine ⟨rfl, fun ta tm tp tu ttm => ?_, fun _ => rfl, fun t h => ?_⟩
  · rcases ta with _ | t
    · simp [construyeResumen]
    · rcases hn : t.nombre with _ | s <;> simp [construyeResumen, hn]
  · simp [ControladorMantenedores.obtenerTemporadaActiva, h,
      ManejadorRespuestas.exito]

/-- C10 (witness): the dedicated handler on the concrete database returns
the formatted first active season. -/
theorem resumen_temporada_discrepancia_witness :
    (ControladorMantenedores.obtenerTemporadaActiva dbEjemplo).1.datos =
      some (.valor (formatearTemporadaActiva
        { id := 1, title := "2024-2025", fecha_inicio := "2024-07-01",
          fecha_fin := "2025-06-30", activo := true,
          activa := none, nombre := none })) :=
  (resumen_temporada_discrepancia dbEjemplo cEjemplo).2.2.2
    { id := 1, title := "2024-2025", fecha_inicio := "2024-07-01",
      fecha_fin := "2025-06-30", activo := true,
      activa := none, nombre := none } (by decide)
